import Mathlib

set_option autoImplicit false

/-!
Shallow embedding of the avr-sts-deepgram session relay and proofs about it.

The repository has two transport variants of the same relay:
namespace RawStream embeds the Express HTTP handler (POST /speech-to-speech-stream,
the file with the output buffer, 100 ms pacing and try/catch cleanup), and
namespace Framed embeds the WebSocket server of src/index.js.

Bytes are natural numbers, buffers are lists of bytes, and each closure
variable of the source becomes a field of an explicit session-state record.
Events that the Node event emitters deliver become constructors of an event
type; processing a trace of events is a fold of the per-event step function.
Time enters only as the timestamp argument of audio events, exactly as in the
source, where the only reads of the clock happen inside the Audio handler.
-/

/-- A byte of audio data (one cell of a Node Buffer). -/
abbrev Byte := Nat

/-- The base64 alphabet used by Node Buffer.toString with the base64 encoding. -/
def b64Alphabet : List Char :=
  "ABCDEFGHIJKLMNOPQRSTUVWXYZabcdefghijklmnopqrstuvwxyz0123456789+/".toList

/-- The base64 digit for a 6-bit value. -/
def b64Char (n : Nat) : Char := b64Alphabet.getD n 'A'

/-- Buffer.toString base64: groups of 3 bytes become 4 characters, a final
partial group is padded with = characters. -/
def base64Encode : List Byte → List Char
  | [] => []
  | [a] => [b64Char (a / 4), b64Char (a % 4 * 16), '=', '=']
  | [a, b] => [b64Char (a / 4), b64Char (a % 4 * 16 + b / 16), b64Char (b % 16 * 4), '=']
  | a :: b :: c :: rest =>
      b64Char (a / 4) :: b64Char (a % 4 * 16 + b / 16) ::
        b64Char (b % 16 * 4 + c / 64) :: b64Char (c % 64) :: base64Encode rest

/-- Buffer.toString base64 as a String. -/
def base64EncodeStr (bs : List Byte) : String := String.mk (base64Encode bs)

/-- The 6-bit value of a base64 digit, none for characters outside the
alphabet (Node's forgiving decoder skips those, including the = padding). -/
def b64Val (ch : Char) : Option Nat :=
  if 'A' ≤ ch ∧ ch ≤ 'Z' then some (ch.toNat - 65)
  else if 'a' ≤ ch ∧ ch ≤ 'z' then some (ch.toNat - 97 + 26)
  else if '0' ≤ ch ∧ ch ≤ '9' then some (ch.toNat - 48 + 52)
  else if ch = '+' then some 62
  else if ch = '/' then some 63
  else none

/-- Reassemble bytes from 6-bit values, four values to three bytes, with
Node's handling of a trailing partial group. -/
def b64Bytes : List Nat → List Byte
  | a :: b :: c :: d :: rest =>
      (a * 4 + b / 16) :: (b % 16 * 16 + c / 4) :: (c % 4 * 64 + d) :: b64Bytes rest
  | [a, b] => [a * 4 + b / 16]
  | [a, b, c] => [a * 4 + b / 16, b % 16 * 16 + c / 4]
  | _ => []

/-- Buffer.from(s, base64), Node's forgiving base64 decoder. -/
def base64Decode (s : String) : List Byte :=
  b64Bytes (s.toList.filterMap b64Val)

namespace RawStream

/-- Which transport primitives fail during the session: res.write, res.end and
connection.disconnect can each throw when called. -/
structure Env where
  resWriteFails : Bool
  resEndFails : Bool
  disconnectFails : Bool
deriving DecidableEq

/-- Observable per-resource side effects of the session, in the order they
actually happen. An entry is recorded only when the underlying resource
changes state, matching Node semantics where clearInterval on a cancelled
timer, ending an ended response, or disconnecting a disconnected connection
do nothing observable. -/
inductive Effect
  | cancelTimer (id : Nat)
  | writeClient (bytes : List Byte)
  | endResponse
  | disconnectUpstream
deriving DecidableEq

/-- The closure state of one POST /speech-to-speech-stream request handler.
written collects the successful res.write payloads (what the client observes,
one entry per flush); upstreamReceived collects what connection.send
delivered to the provider; loggedTranscripts collects the console.log output
of the ConversationText handler (role and text of final messages). -/
structure St where
  keepAliveIntervalId : Option Nat
  liveTimers : List Nat
  nextTimerId : Nat
  outputChunksQueue : List Byte
  isFirstOutputChunk : Bool
  outputStartTime : Option Nat
  resEnded : Bool
  written : List (List Byte)
  connReady : Bool
  connDisconnected : Bool
  upstreamReceived : List (List Byte)
  loggedTranscripts : List (String × String)
  effects : List Effect
deriving DecidableEq

/-- State at the top of the request handler: empty buffer, no timer, first
chunk pending, nothing written. Timer ids start at 1 because Node interval
handles are always truthy. -/
def init : St :=
  { keepAliveIntervalId := none, liveTimers := [], nextTimerId := 1
    outputChunksQueue := [], isFirstOutputChunk := true, outputStartTime := none
    resEnded := false, written := [], connReady := false, connDisconnected := false
    upstreamReceived := [], loggedTranscripts := [], effects := [] }

/-- Node clearInterval: cancels the timer; cancelling an already cancelled
timer has no observable effect. -/
def clearIntervalOp (id : Nat) (s : St) : St :=
  if id ∈ s.liveTimers then
    { s with liveTimers := s.liveTimers.erase id, effects := s.effects ++ [.cancelTimer id] }
  else s

/-- res.write: throws if the response already ended or the transport write
fails; otherwise the bytes reach the client as one flush. -/
def resWriteOp (env : Env) (w : List Byte) (s : St) : Except String St :=
  if s.resEnded || env.resWriteFails then .error "res.write failed"
  else .ok { s with written := s.written ++ [w], effects := s.effects ++ [.writeClient w] }

/-- res.end: ends the response; ending twice is not a new observable effect. -/
def resEndOp (env : Env) (s : St) : Except String St :=
  if s.resEnded then .ok s
  else if env.resEndFails then .error "res.end failed"
  else .ok { s with resEnded := true, effects := s.effects ++ [.endResponse] }

/-- connection.disconnect: closes the upstream provider connection;
disconnecting twice is not a new observable effect. -/
def disconnectOp (env : Env) (s : St) : Except String St :=
  if s.connDisconnected then .ok s
  else if env.disconnectFails then .error "connection.disconnect failed"
  else .ok { s with connDisconnected := true, effects := s.effects ++ [.disconnectUpstream] }

/-- try block catch ignored: on a throw the state is unchanged (the embedded
primitives fail before mutating). -/
def tryOp (r : Except String St) (s : St) : St :=
  match r with
  | .ok s' => s'
  | .error _ => s

/-- flushOutputBuffer of the source: if the queue is nonempty, res.write it
inside try/catch and empty the queue either way; then reset the first-chunk
flag and the window start. -/
def flushOutputBuffer (env : Env) (s : St) : St :=
  let s1 :=
    if s.outputChunksQueue = [] then s
    else { tryOp (resWriteOp env s.outputChunksQueue s) s with outputChunksQueue := [] }
  { s1 with isFirstOutputChunk := true, outputStartTime := none }

/-- cleanup of the source: clearInterval if the handle is set (interval
handles are truthy), flush, then res.end and connection.disconnect each in
its own try/catch. Every throw site sits inside a catch, so the whole
routine always returns ok. -/
def cleanupE (env : Env) (s : St) : Except String St :=
  let s1 :=
    match s.keepAliveIntervalId with
    | some id => clearIntervalOp id s
    | none => s
  let s2 := flushOutputBuffer env s1
  let s3 := tryOp (resEndOp env s2) s2
  let s4 := tryOp (disconnectOp env s3) s3
  .ok s4

/-- cleanup as a state transformer (cleanupE never returns an error). -/
def cleanupRun (env : Env) (s : St) : St :=
  tryOp (cleanupE env s) s

/-- cleanup invoked n times in a row. -/
def cleanupIter (env : Env) : Nat → St → St
  | 0, s => s
  | n + 1, s => cleanupIter env n (cleanupRun env s)

/-- JavaScript truthiness of the outputStartTime variable: null and 0 are
falsy (Date.now() is never 0 in practice, but the embedding keeps the test). -/
def osTruthy : Option Nat → Bool
  | none => false
  | some t => t != 0

/-- Modelled from the spec: connection.send of the Deepgram SDK is not part
of this repository. Per the upstream provider contract of the spec (a ready
signal is emitted once before any audio may be sent; frames sent before the
handshake completes are no-ops, dropped and not queued), sending is a no-op
unless the connection has signalled ready and has not been disconnected. -/
def connSend (chunk : List Byte) (s : St) : St :=
  if s.connReady && !s.connDisconnected then
    { s with upstreamReceived := s.upstreamReceived ++ [chunk] }
  else s

/-- The Welcome handler: configure the agent (contents of the configuration
payload are immaterial to the claims) and start the 5 s keep-alive interval;
the connection is ready for audio from this point on. -/
def welcomeStep (s : St) : St :=
  { s with connReady := true
           keepAliveIntervalId := some s.nextTimerId
           liveTimers := s.liveTimers ++ [s.nextTimerId]
           nextTimerId := s.nextTimerId + 1 }

/-- The Audio handler: record the window start at the first chunk since the
buffer was last emptied, append the chunk, and if at least 100 ms have
elapsed since the window start, write the whole queue to the client (this
res.write is not inside a try/catch in the source) and restart the window. -/
def audioStep (env : Env) (data : List Byte) (now : Nat) (s : St) : Except String St :=
  let s1 :=
    if s.isFirstOutputChunk then
      { s with outputStartTime := some now, isFirstOutputChunk := false }
    else s
  let s2 := { s1 with outputChunksQueue := s1.outputChunksQueue ++ data }
  if osTruthy s2.outputStartTime && decide (100 ≤ now - s2.outputStartTime.getD 0) then
    let toWrite := s2.outputChunksQueue
    resWriteOp env toWrite { s2 with outputChunksQueue := [], outputStartTime := some now }
  else .ok s2

/-- The events a session observes, in emitter order: upstream agent events
and client request events. Timestamps appear only where the source reads the
clock. -/
inductive Ev
  | welcome
  | audio (data : List Byte) (now : Nat)
  | audioDone
  | convText (role : String) (text : String) (final : Bool)
  | agentError
  | agentClose
  | reqData (chunk : List Byte)
  | reqEnd
  | reqError

/-- One event handler dispatch of the HTTP session. -/
def step (env : Env) (s : St) : Ev → Except String St
  | .welcome => .ok (welcomeStep s)
  | .audio d now => audioStep env d now s
  | .audioDone => .ok (flushOutputBuffer env s)
  | .convText role text final =>
      .ok (if final then { s with loggedTranscripts := s.loggedTranscripts ++ [(role, text)] } else s)
  | .agentError => cleanupE env s
  | .agentClose => cleanupE env s
  | .reqData c => .ok (connSend c s)
  | .reqEnd => cleanupE env s
  | .reqError => cleanupE env s

/-- Process a list of events in order. -/
def run (env : Env) (s : St) : List Ev → Except String St
  | [] => .ok s
  | e :: es =>
      match step env s e with
      | .ok s' => run env s' es
      | .error m => .error m

end RawStream

/-- The environment where no transport primitive fails. -/
def benignHttp : RawStream.Env := { resWriteFails := false, resEndFails := false, disconnectFails := false }

namespace Framed

/-- Which primitives fail during cleanup of the WebSocket variant:
connection.disconnect and clientWs.close can each throw when called. -/
structure Env where
  disconnectFails : Bool
  wsCloseFails : Bool
deriving DecidableEq

/-- The JSON frames the server sends to the client over the WebSocket
(JSON.stringify of an object with the listed fields and a type tag). -/
inductive Frame
  | audio (b64 : String)
  | transcript (role : String) (text : String)
  | interruption
  | error (message : String)
deriving DecidableEq

/-- Observable per-resource side effects, recorded when the resource changes
state (cancelling a cancelled timer, disconnecting a disconnected connection
and closing a closed WebSocket are Node no-ops). -/
inductive Effect
  | cancelTimer (id : Nat)
  | disconnectUpstream (id : Nat)
  | closeClientWs
deriving DecidableEq

/-- The closure state of one handleClientConnection call of src/index.js.
Upstream connections get fresh ids so that the session variable holding only
the latest one is distinguishable from the set of connections still alive;
sentFrames collects the clientWs.send payloads in order. -/
structure St where
  sessionUuid : Option String
  connection : Option Nat
  connsCreated : Nat
  liveConns : List Nat
  readyConns : List Nat
  keepAliveIntervalId : Option Nat
  liveTimers : List Nat
  nextId : Nat
  sentFrames : List Frame
  upstreamReceived : List (List Byte)
  clientClosed : Bool
  effects : List Effect
deriving DecidableEq

/-- State right after a client WebSocket connection is accepted. Ids start
at 1 because Node handles are truthy. -/
def init : St :=
  { sessionUuid := none, connection := none, connsCreated := 0
    liveConns := [], readyConns := [], keepAliveIntervalId := none
    liveTimers := [], nextId := 1, sentFrames := [], upstreamReceived := []
    clientClosed := false, effects := [] }

/-- Node clearInterval: no observable effect on a cancelled timer. -/
def clearIntervalOp (id : Nat) (s : St) : St :=
  if id ∈ s.liveTimers then
    { s with liveTimers := s.liveTimers.erase id, effects := s.effects ++ [.cancelTimer id] }
  else s

/-- connection.disconnect of the current connection: throws when the
environment says so; disconnecting an already closed connection is a no-op. -/
def disconnectOp (env : Env) (c : Nat) (s : St) : Except String St :=
  if c ∈ s.liveConns then
    if env.disconnectFails then .error "connection.disconnect failed"
    else .ok { s with liveConns := s.liveConns.erase c, effects := s.effects ++ [.disconnectUpstream c] }
  else .ok s

/-- clientWs.close: throws when the environment says so; closing an already
closed socket is a no-op. -/
def wsCloseOp (env : Env) (s : St) : Except String St :=
  if s.clientClosed then .ok s
  else if env.wsCloseFails then .error "clientWs.close failed"
  else .ok { s with clientClosed := true, effects := s.effects ++ [.closeClientWs] }

/-- cleanup of src/index.js: clearInterval if the handle is set, disconnect
the current connection if set, close the client WebSocket. The source wraps
none of these in try/catch, so a throw from disconnect propagates to the
caller and the close is never attempted. -/
def cleanupE (env : Env) (s : St) : Except String St :=
  let s1 :=
    match s.keepAliveIntervalId with
    | some id => clearIntervalOp id s
    | none => s
  match
    (match s1.connection with
     | some c => disconnectOp env c s1
     | none => .ok s1) with
  | .ok s2 => wsCloseOp env s2
  | .error m => .error m

/-- cleanup as a state transformer for environments where it cannot throw. -/
def cleanupRun (env : Env) (s : St) : St :=
  match cleanupE env s with
  | .ok s' => s'
  | .error _ => s

/-- cleanup invoked n times in a row. -/
def cleanupIter (env : Env) : Nat → St → St
  | 0, s => s
  | n + 1, s => cleanupIter env n (cleanupRun env s)

/-- clientWs.send: delivers one frame to the client while the socket is open. -/
def wsSend (f : Frame) (s : St) : St :=
  if s.clientClosed then s else { s with sentFrames := s.sentFrames ++ [f] }

/-- The client messages after JSON.parse and the type switch of the message
handler: init, audio (whose audio field may be absent), an unknown type, or
a frame that failed to parse. -/
inductive ClientMsg
  | init (uuid : String)
  | audio (audio : Option String)
  | other (t : String)
  | badJson

/-- JavaScript truthiness of the audio field: undefined and the empty string
are falsy. -/
def strTruthy : Option String → Bool
  | none => false
  | some s => s != ""

/-- initializeDeepgramConnection of the source: creates a fresh upstream
connection and stores it in the session variable, overwriting (and leaking,
not disconnecting) any previous one. -/
def initDeepgramConnection (s : St) : St :=
  { s with connection := some s.nextId
           connsCreated := s.connsCreated + 1
           liveConns := s.liveConns ++ [s.nextId]
           nextId := s.nextId + 1 }

/-- Modelled from the spec: connection.send of the Deepgram SDK is not part
of this repository. Per the upstream provider contract of the spec (a ready
signal is emitted once before any audio may be sent; frames sent before the
handshake completes are no-ops, dropped and not queued), sending is a no-op
unless the connection addressed has signalled ready and is still alive. -/
def connSend (chunk : List Byte) (s : St) : St :=
  match s.connection with
  | some c =>
      if c ∈ s.readyConns ∧ c ∈ s.liveConns then
        { s with upstreamReceived := s.upstreamReceived ++ [chunk] }
      else s
  | none => s

/-- The client message handler of src/index.js: init stores the uuid and
creates the upstream connection; audio decodes base64 and sends it upstream
only when the audio field is truthy and a connection object exists; unknown
types and parse failures are logged and ignored. -/
def clientStep (s : St) : ClientMsg → St
  | .init uuid => initDeepgramConnection { s with sessionUuid := some uuid }
  | .audio a =>
      if strTruthy a && s.connection.isSome then connSend (base64Decode (a.getD "")) s
      else s
  | .other _ => s
  | .badJson => s

/-- The upstream agent events of src/index.js, delivered to the handlers the
current connection registered. -/
inductive UpEv
  | welcome
  | convText (role : String) (content : String) (final : Bool)
  | audioEv (data : List Byte)
  | audioDone
  | userStartedSpeaking
  | errorEv (message : String)
  | closeEv

/-- The Welcome handler: configure the agent (payload immaterial to the
claims), mark the current connection ready, and start a fresh 5 s keep-alive
interval, overwriting (without cancelling) any interval handle already
stored. -/
def welcomeStep (s : St) : St :=
  match s.connection with
  | some c =>
      { s with readyConns := s.readyConns ++ [c]
               keepAliveIntervalId := some s.nextId
               liveTimers := s.liveTimers ++ [s.nextId]
               nextId := s.nextId + 1 }
  | none => s

/-- One upstream event handler dispatch of the WebSocket session. The
ConversationText handler sends role and content only — its finality is read
nowhere; the Audio handler immediately sends one base64 frame per chunk. -/
def upStep (env : Env) (s : St) : UpEv → Except String St
  | .welcome => .ok (welcomeStep s)
  | .convText role content _final =>
      .ok (wsSend (.transcript (if role == "user" then "user" else "agent") content) s)
  | .audioEv d => .ok (wsSend (.audio (base64EncodeStr d)) s)
  | .audioDone => .ok s
  | .userStartedSpeaking => .ok (wsSend .interruption s)
  | .errorEv m => cleanupE env (wsSend (.error m) s)
  | .closeEv => cleanupE env s

/-- All events one WebSocket session observes: client messages, upstream
events, and the close and error events of the client socket (on close the
socket is already closed when the handler runs). -/
inductive Ev
  | client (m : ClientMsg)
  | up (e : UpEv)
  | clientClose
  | clientError

/-- One event dispatch of the WebSocket session. -/
def step (env : Env) (s : St) : Ev → Except String St
  | .client m => .ok (clientStep s m)
  | .up e => upStep env s e
  | .clientClose => cleanupE env { s with clientClosed := true }
  | .clientError => cleanupE env s

/-- Process a list of events in order. -/
def run (env : Env) (s : St) : List Ev → Except String St
  | [] => .ok s
  | e :: es =>
      match step env s e with
      | .ok s' => run env s' es
      | .error m => .error m

end Framed

/-- The environment where no cleanup primitive of the WebSocket variant fails. -/
def benignWs : Framed.Env := { disconnectFails := false, wsCloseFails := false }

/-! Helper lemmas. -/

/-- Running a concatenation of event lists runs them in sequence. -/
theorem RawStream.run_append (env : RawStream.Env) (s : RawStream.St)
    (l1 l2 : List RawStream.Ev) :
    RawStream.run env s (l1 ++ l2) =
      match RawStream.run env s l1 with
      | .ok s' => RawStream.run env s' l2
      | .error m => .error m := by
  induction l1 generalizing s with
  | nil => simp [RawStream.run]
  | cons e es ih =>
      simp only [List.cons_append, RawStream.run]
      cases RawStream.step env s e with
      | ok s' => exact ih s'
      | error m => rfl

/-- Running a concatenation of event lists runs them in sequence. -/
theorem Framed.ws_run_append (env : Framed.Env) (s : Framed.St)
    (l1 l2 : List Framed.Ev) :
    Framed.run env s (l1 ++ l2) =
      match Framed.run env s l1 with
      | .ok s' => Framed.run env s' l2
      | .error m => .error m := by
  induction l1 generalizing s with
  | nil => simp [Framed.run]
  | cons e es ih =>
      simp only [List.cons_append, Framed.run]
      cases Framed.step env s e with
      | ok s' => exact ih s'
      | error m => rfl

/-- try/catch around an operation that succeeded. -/
theorem RawStream.tryOp_ok (s' s : RawStream.St) :
    RawStream.tryOp (.ok s') s = s' := rfl

/-- Explicit form of clearInterval. -/
theorem RawStream.clearIntervalOp_eq (id : Nat) (s : RawStream.St) :
    RawStream.clearIntervalOp id s =
      { s with liveTimers := s.liveTimers.erase id
               effects := s.effects ++
                 (if id ∈ s.liveTimers then [RawStream.Effect.cancelTimer id] else []) } := by
  obtain ⟨kA, lt, nt, q, f, st, re, w, cr, cd, ur, lg, fx⟩ := s
  unfold RawStream.clearIntervalOp
  by_cases h : id ∈ lt <;> simp [h, List.erase_of_not_mem]

/-- Explicit form of flushOutputBuffer. -/
theorem RawStream.flushOutputBuffer_eq (env : RawStream.Env) (s : RawStream.St) :
    RawStream.flushOutputBuffer env s =
      { s with outputChunksQueue := []
               isFirstOutputChunk := true
               outputStartTime := none
               written := s.written ++
                 (if s.outputChunksQueue = [] ∨ s.resEnded = true ∨ env.resWriteFails = true then []
                  else [s.outputChunksQueue])
               effects := s.effects ++
                 (if s.outputChunksQueue = [] ∨ s.resEnded = true ∨ env.resWriteFails = true then []
                  else [RawStream.Effect.writeClient s.outputChunksQueue]) } := by
  obtain ⟨kA, lt, nt, q, f, st, re, w, cr, cd, ur, lg, fx⟩ := s
  obtain ⟨ew, ee, ed⟩ := env
  unfold RawStream.flushOutputBuffer RawStream.tryOp RawStream.resWriteOp
  by_cases hq : q = [] <;> cases re <;> cases ew <;> simp [hq]

/-- Explicit form of res.end inside try/catch. -/
theorem RawStream.resEndTry_eq (env : RawStream.Env) (s : RawStream.St) :
    RawStream.tryOp (RawStream.resEndOp env s) s =
      { s with resEnded := s.resEnded || !env.resEndFails
               effects := s.effects ++
                 (if s.resEnded = true ∨ env.resEndFails = true then []
                  else [RawStream.Effect.endResponse]) } := by
  obtain ⟨kA, lt, nt, q, f, st, re, w, cr, cd, ur, lg, fx⟩ := s
  obtain ⟨ew, ee, ed⟩ := env
  unfold RawStream.tryOp RawStream.resEndOp
  cases re <;> cases ee <;> simp

/-- Explicit form of connection.disconnect inside try/catch. -/
theorem RawStream.disconnectTry_eq (env : RawStream.Env) (s : RawStream.St) :
    RawStream.tryOp (RawStream.disconnectOp env s) s =
      { s with connDisconnected := s.connDisconnected || !env.disconnectFails
               effects := s.effects ++
                 (if s.connDisconnected = true ∨ env.disconnectFails = true then []
                  else [RawStream.Effect.disconnectUpstream]) } := by
  obtain ⟨kA, lt, nt, q, f, st, re, w, cr, cd, ur, lg, fx⟩ := s
  obtain ⟨ew, ee, ed⟩ := env
  unfold RawStream.tryOp RawStream.disconnectOp
  cases cd <;> cases ed <;> simp

/-- Explicit form of one HTTP cleanup run: the timer (if any) is cancelled,
the queue is flushed (written only when nonempty and the write can succeed)
and emptied, the response is ended and the connection disconnected unless
the respective primitive fails, and the observable effects happen in that
order, each at most once. -/
theorem RawStream.cleanupRun_eq (env : RawStream.Env) (s : RawStream.St) :
    RawStream.cleanupRun env s =
      { s with
        liveTimers :=
          match s.keepAliveIntervalId with
          | some id => s.liveTimers.erase id
          | none => s.liveTimers
        outputChunksQueue := []
        isFirstOutputChunk := true
        outputStartTime := none
        resEnded := s.resEnded || !env.resEndFails
        written := s.written ++
          (if s.outputChunksQueue = [] ∨ s.resEnded = true ∨ env.resWriteFails = true then []
           else [s.outputChunksQueue])
        connDisconnected := s.connDisconnected || !env.disconnectFails
        effects := s.effects
          ++ (match s.keepAliveIntervalId with
              | some id => if id ∈ s.liveTimers then [RawStream.Effect.cancelTimer id] else []
              | none => [])
          ++ (if s.outputChunksQueue = [] ∨ s.resEnded = true ∨ env.resWriteFails = true then []
              else [RawStream.Effect.writeClient s.outputChunksQueue])
          ++ (if s.resEnded = true ∨ env.resEndFails = true then []
              else [RawStream.Effect.endResponse])
          ++ (if s.connDisconnected = true ∨ env.disconnectFails = true then []
              else [RawStream.Effect.disconnectUpstream]) } := by
  unfold RawStream.cleanupRun RawStream.cleanupE
  cases hkA : s.keepAliveIntervalId with
  | none =>
      simp only [RawStream.clearIntervalOp_eq, RawStream.flushOutputBuffer_eq,
        RawStream.resEndTry_eq, RawStream.disconnectTry_eq, RawStream.tryOp_ok,
        List.append_assoc, List.append_nil, List.nil_append, hkA]
  | some id =>
      simp only [RawStream.clearIntervalOp_eq, RawStream.flushOutputBuffer_eq,
        RawStream.resEndTry_eq, RawStream.disconnectTry_eq, RawStream.tryOp_ok,
        List.append_assoc, List.append_nil, List.nil_append, hkA]

/-- Explicit form of clearInterval in the WebSocket session. -/
theorem Framed.ws_clearIntervalOp_eq (id : Nat) (s : Framed.St) :
    Framed.clearIntervalOp id s =
      { s with liveTimers := s.liveTimers.erase id
               effects := s.effects ++
                 (if id ∈ s.liveTimers then [Framed.Effect.cancelTimer id] else []) } := by
  obtain ⟨u, co, cc, lc, rc, kA, lt, ni, sf, ur, cl, fx⟩ := s
  unfold Framed.clearIntervalOp
  by_cases h : id ∈ lt <;> simp [h, List.erase_of_not_mem]

/-- Explicit form of connection.disconnect when disconnecting succeeds. -/
theorem Framed.disconnectOp_benign (c : Nat) (s : Framed.St) :
    Framed.disconnectOp benignWs c s =
      .ok { s with liveConns := s.liveConns.erase c
                   effects := s.effects ++
                     (if c ∈ s.liveConns then [Framed.Effect.disconnectUpstream c] else []) } := by
  obtain ⟨u, co, cc, lc, rc, kA, lt, ni, sf, ur, cl, fx⟩ := s
  unfold Framed.disconnectOp
  by_cases h : c ∈ lc <;> simp [h, List.erase_of_not_mem, benignWs]

/-- Explicit form of clientWs.close when closing succeeds. -/
theorem Framed.wsCloseOp_benign (s : Framed.St) :
    Framed.wsCloseOp benignWs s =
      .ok { s with clientClosed := true
                   effects := s.effects ++
                     (if s.clientClosed = true then [] else [Framed.Effect.closeClientWs]) } := by
  obtain ⟨u, co, cc, lc, rc, kA, lt, ni, sf, ur, cl, fx⟩ := s
  unfold Framed.wsCloseOp
  cases cl <;> simp [benignWs]

/-- Explicit form of one WebSocket cleanup run when no primitive fails: the
timer (if any) is cancelled, the current connection (if any) disconnected,
and the client socket closed, each effect at most once and in that order. -/
theorem Framed.cleanupRun_benign_eq (s : Framed.St) :
    Framed.cleanupE benignWs s =
      .ok { s with
        liveTimers :=
          match s.keepAliveIntervalId with
          | some id => s.liveTimers.erase id
          | none => s.liveTimers
        liveConns :=
          match s.connection with
          | some c => s.liveConns.erase c
          | none => s.liveConns
        clientClosed := true
        effects := s.effects
          ++ (match s.keepAliveIntervalId with
              | some id => if id ∈ s.liveTimers then [Framed.Effect.cancelTimer id] else []
              | none => [])
          ++ (match s.connection with
              | some c => if c ∈ s.liveConns then [Framed.Effect.disconnectUpstream c] else []
              | none => [])
          ++ (if s.clientClosed = true then [] else [Framed.Effect.closeClientWs]) } := by
  unfold Framed.cleanupE
  cases hkA : s.keepAliveIntervalId with
  | none =>
      cases hco : s.connection with
      | none =>
          simp only [Framed.wsCloseOp_benign, List.append_assoc, List.append_nil,
            List.nil_append, hkA, hco]
      | some c =>
          simp only [Framed.ws_clearIntervalOp_eq, Framed.disconnectOp_benign,
            Framed.wsCloseOp_benign, List.append_assoc, List.append_nil, List.nil_append,
            hkA, hco]
  | some id =>
      cases hco : s.connection with
      | none =>
          simp only [Framed.ws_clearIntervalOp_eq, Framed.wsCloseOp_benign, List.append_assoc,
            List.append_nil, List.nil_append, hkA, hco]
      | some c =>
          simp only [Framed.ws_clearIntervalOp_eq, Framed.disconnectOp_benign,
            Framed.wsCloseOp_benign, List.append_assoc, List.append_nil, List.nil_append,
            hkA, hco]

/-- cleanupRun under a benign environment, as a state transformer. -/
theorem Framed.cleanupRun_benign (s : Framed.St) :
    Framed.cleanupRun benignWs s =
      { s with
        liveTimers :=
          match s.keepAliveIntervalId with
          | some id => s.liveTimers.erase id
          | none => s.liveTimers
        liveConns :=
          match s.connection with
          | some c => s.liveConns.erase c
          | none => s.liveConns
        clientClosed := true
        effects := s.effects
          ++ (match s.keepAliveIntervalId with
              | some id => if id ∈ s.liveTimers then [Framed.Effect.cancelTimer id] else []
              | none => [])
          ++ (match s.connection with
              | some c => if c ∈ s.liveConns then [Framed.Effect.disconnectUpstream c] else []
              | none => [])
          ++ (if s.clientClosed = true then [] else [Framed.Effect.closeClientWs]) } := by
  unfold Framed.cleanupRun
  rw [Framed.cleanupRun_benign_eq]

/-- Cleaning up twice is the same as cleaning up once (HTTP variant), for any
combination of primitive failures, on any state whose timer list has no
duplicate handles. -/
theorem RawStream.cleanupRun_idem (env : RawStream.Env) (s : RawStream.St)
    (h : s.liveTimers.Nodup) :
    RawStream.cleanupRun env (RawStream.cleanupRun env s) = RawStream.cleanupRun env s := by
  obtain ⟨ew, ee, ed⟩ := env
  rw [RawStream.cleanupRun_eq, RawStream.cleanupRun_eq]
  cases hkA : s.keepAliveIntervalId with
  | none => cases ee <;> cases ed <;> simp
  | some id =>
      have hid : id ∉ s.liveTimers.erase id := h.not_mem_erase
      cases ee <;> cases ed <;> simp [hid, List.erase_of_not_mem hid]

/-- HTTP cleanup preserves the no-duplicate-timers property. -/
theorem RawStream.cleanupRun_nodup (env : RawStream.Env) (s : RawStream.St)
    (h : s.liveTimers.Nodup) : (RawStream.cleanupRun env s).liveTimers.Nodup := by
  rw [RawStream.cleanupRun_eq]
  cases s.keepAliveIntervalId <;> simp <;> first
  | exact h
  | exact h.erase _

/-- n invocations of HTTP cleanup are one invocation, for n at least one. -/
theorem RawStream.cleanupIter_eq (env : RawStream.Env) (n : Nat) (s : RawStream.St)
    (h : s.liveTimers.Nodup) (hn : 1 ≤ n) :
    RawStream.cleanupIter env n s = RawStream.cleanupRun env s := by
  induction n generalizing s with
  | zero => omega
  | succ n ih =>
      cases n with
      | zero => rfl
      | succ m =>
          show RawStream.cleanupIter env (m + 1) (RawStream.cleanupRun env s) =
            RawStream.cleanupRun env s
          rw [ih (RawStream.cleanupRun env s) (RawStream.cleanupRun_nodup env s h) (by omega),
            RawStream.cleanupRun_idem env s h]

/-- Cleaning up twice is the same as cleaning up once (WebSocket variant), on
any state whose timer and connection lists have no duplicate handles. -/
theorem Framed.ws_cleanupRun_idem (s : Framed.St)
    (ht : s.liveTimers.Nodup) (hc : s.liveConns.Nodup) :
    Framed.cleanupRun benignWs (Framed.cleanupRun benignWs s) =
      Framed.cleanupRun benignWs s := by
  rw [Framed.cleanupRun_benign, Framed.cleanupRun_benign]
  cases hkA : s.keepAliveIntervalId with
  | none =>
      cases hco : s.connection with
      | none => simp
      | some c =>
          have hcm : c ∉ s.liveConns.erase c := hc.not_mem_erase
          simp [hcm, List.erase_of_not_mem hcm]
  | some id =>
      have hid : id ∉ s.liveTimers.erase id := ht.not_mem_erase
      cases hco : s.connection with
      | none => simp [hid, List.erase_of_not_mem hid]
      | some c =>
          have hcm : c ∉ s.liveConns.erase c := hc.not_mem_erase
          simp [hid, List.erase_of_not_mem hid, hcm, List.erase_of_not_mem hcm]

/-- WebSocket cleanup preserves the no-duplicate-handles properties. -/
theorem Framed.ws_cleanupRun_nodup (s : Framed.St)
    (ht : s.liveTimers.Nodup) (hc : s.liveConns.Nodup) :
    (Framed.cleanupRun benignWs s).liveTimers.Nodup ∧
      (Framed.cleanupRun benignWs s).liveConns.Nodup := by
  rw [Framed.cleanupRun_benign]
  constructor
  · cases s.keepAliveIntervalId <;> simp <;> first
    | exact ht
    | exact ht.erase _
  · cases s.connection <;> simp <;> first
    | exact hc
    | exact hc.erase _

/-- n invocations of WebSocket cleanup are one invocation, for n at least one. -/
theorem Framed.ws_cleanupIter_eq (n : Nat) (s : Framed.St)
    (ht : s.liveTimers.Nodup) (hc : s.liveConns.Nodup) (hn : 1 ≤ n) :
    Framed.cleanupIter benignWs n s = Framed.cleanupRun benignWs s := by
  induction n generalizing s with
  | zero => omega
  | succ n ih =>
      cases n with
      | zero => rfl
      | succ m =>
          show Framed.cleanupIter benignWs (m + 1) (Framed.cleanupRun benignWs s) =
            Framed.cleanupRun benignWs s
          obtain ⟨ht', hc'⟩ := Framed.ws_cleanupRun_nodup s ht hc
          rw [ih (Framed.cleanupRun benignWs s) ht' hc' (by omega),
            Framed.ws_cleanupRun_idem s ht hc]

/-- cleanupE never returns an error in the HTTP variant, so cleanupRun is its
payload. -/
theorem RawStream.cleanupE_ok (env : RawStream.Env) (s : RawStream.St) :
    RawStream.cleanupE env s = .ok (RawStream.cleanupRun env s) := rfl

/-- Audio chunks all arriving strictly inside the 100 ms window neither flush
nor disturb anything: they only accumulate in the output buffer. -/
theorem RawStream.run_audio_within (rest : List (List Byte × Nat)) (t0 : Nat)
    (s : RawStream.St)
    (hf : s.isFirstOutputChunk = false) (hst : s.outputStartTime = some t0)
    (hw : ∀ p ∈ rest, p.2 < t0 + 100) :
    RawStream.run benignHttp s (rest.map fun p => RawStream.Ev.audio p.1 p.2) =
      .ok { s with outputChunksQueue := s.outputChunksQueue ++ (rest.map Prod.fst).flatten } := by
  induction rest generalizing s with
  | nil => simp [RawStream.run]
  | cons p ps ih =>
      obtain ⟨d, now⟩ := p
      have hlt : (100 ≤ now - t0) = False := by
        have := hw (d, now) (by simp)
        simp only [eq_iff_iff, iff_false]
        omega
      simp only [List.map_cons, RawStream.run, RawStream.step, RawStream.audioStep, hf,
        Bool.false_eq_true, if_false, hst, Option.getD_some, hlt, decide_False,
        Bool.and_false, RawStream.osTruthy]
      rw [ih { s with outputChunksQueue := s.outputChunksQueue ++ d, isFirstOutputChunk := false, outputStartTime := some t0 } rfl rfl (fun p hp => hw p (by simp [hp]))]
      simp [List.append_assoc]

/-- Chunks fed through req data while the upstream connection is not yet
ready are dropped without any state change. -/
theorem RawStream.run_reqData_notReady (env : RawStream.Env) (chunks : List (List Byte))
    (s : RawStream.St) (h : s.connReady = false) :
    RawStream.run env s (chunks.map RawStream.Ev.reqData) = .ok s := by
  induction chunks with
  | nil => rfl
  | cons c cs ih =>
      simp only [List.map_cons, RawStream.run, RawStream.step, RawStream.connSend, h,
        Bool.false_and, Bool.false_eq_true, if_false]
      exact ih

/-- Chunks fed through req data once the upstream connection is ready are
forwarded verbatim, in order. -/
theorem RawStream.run_reqData_ready (env : RawStream.Env) (chunks : List (List Byte))
    (s : RawStream.St) (h1 : s.connReady = true) (h2 : s.connDisconnected = false) :
    RawStream.run env s (chunks.map RawStream.Ev.reqData) =
      .ok { s with upstreamReceived := s.upstreamReceived ++ chunks } := by
  induction chunks generalizing s with
  | nil => simp [RawStream.run]
  | cons c cs ih =>
      simp only [List.map_cons, RawStream.run, RawStream.step, RawStream.connSend, h1, h2,
        Bool.not_false, Bool.and_self, if_true]
      rw [ih { s with connReady := true, connDisconnected := false, upstreamReceived := s.upstreamReceived ++ [c] } rfl rfl]
      simp [List.append_assoc]

/-- One Audio event never fails while the response is open, keeps it open,
and conserves bytes: everything written so far plus the pending queue grows
by exactly the incoming chunk, in order. -/
theorem RawStream.audioStep_ok (d : List Byte) (now : Nat) (s : RawStream.St)
    (hre : s.resEnded = false) :
    ∃ s', RawStream.audioStep benignHttp d now s = .ok s'
      ∧ s'.resEnded = false
      ∧ s'.written.flatten ++ s'.outputChunksQueue =
          s.written.flatten ++ s.outputChunksQueue ++ d := by
  by_cases hf : s.isFirstOutputChunk = true
  · refine ⟨{ s with outputChunksQueue := s.outputChunksQueue ++ d, isFirstOutputChunk := false, outputStartTime := some now }, ?_, by simp [hre], by simp [List.append_assoc]⟩
    unfold RawStream.audioStep
    simp [hf, RawStream.osTruthy]
  · simp only [RawStream.audioStep, hf, Bool.false_eq_true, if_false]
    split
    · unfold RawStream.resWriteOp
      simp only [hre, benignHttp, Bool.or_self, Bool.false_eq_true, if_false]
      refine ⟨_, rfl, rfl, ?_⟩
      simp [List.append_assoc]
    · refine ⟨_, rfl, by simp [hre], ?_⟩
      simp [List.append_assoc]

/-- A whole trace of Audio events conserves bytes: written flushes plus the
pending queue grow by exactly the concatenation of the chunks, in order. -/
theorem RawStream.run_audio_concat (evs : List (List Byte × Nat)) (s : RawStream.St)
    (hre : s.resEnded = false) :
    ∃ s', RawStream.run benignHttp s (evs.map fun p => RawStream.Ev.audio p.1 p.2) = .ok s'
      ∧ s'.resEnded = false
      ∧ s'.written.flatten ++ s'.outputChunksQueue =
          s.written.flatten ++ s.outputChunksQueue ++ (evs.map Prod.fst).flatten := by
  induction evs generalizing s with
  | nil => exact ⟨s, rfl, hre, by simp⟩
  | cons p ps ih =>
      obtain ⟨d, now⟩ := p
      obtain ⟨s1, hs1, hre1, hinv1⟩ := RawStream.audioStep_ok d now s hre
      obtain ⟨s2, hs2, hre2, hinv2⟩ := ih s1 hre1
      refine ⟨s2, ?_, hre2, ?_⟩
      · simp only [List.map_cons, RawStream.run, RawStream.step, hs1]
        exact hs2
      · rw [hinv2, hinv1]
        simp [List.append_assoc]

/-- Client audio frames addressed to a connection that has not signalled
ready are complete no-ops on the session state. -/
theorem Framed.run_audioMsgs_notReady (env : Framed.Env) (msgs : List (Option String))
    (s : Framed.St) (c : Nat) (hco : s.connection = some c) (hnr : c ∉ s.readyConns) :
    Framed.run env s (msgs.map fun a => Framed.Ev.client (.audio a)) = .ok s := by
  induction msgs with
  | nil => rfl
  | cons a ms ih =>
      have hnc : ¬(c ∈ s.readyConns ∧ c ∈ s.liveConns) := fun h => hnr h.1
      simp only [List.map_cons, Framed.run, Framed.step, Framed.clientStep, Framed.connSend,
        hco, hnc, if_false, ite_self]
      exact ih

/-- Client audio frames addressed to a ready, live connection deliver the
decoded bytes of every truthy frame upstream, in order. -/
theorem Framed.run_audioMsgs_ready (env : Framed.Env) (msgs : List (Option String))
    (s : Framed.St) (c : Nat) (hco : s.connection = some c)
    (hr : c ∈ s.readyConns) (hl : c ∈ s.liveConns) :
    Framed.run env s (msgs.map fun a => Framed.Ev.client (.audio a)) =
      .ok { s with upstreamReceived := s.upstreamReceived ++
              (msgs.filter strTruthy).map fun a => base64Decode (a.getD "") } := by
  induction msgs generalizing s with
  | nil => simp [Framed.run]
  | cons a ms ih =>
      by_cases ht : strTruthy a = true
      · simp only [List.map_cons, Framed.run, Framed.step, Framed.clientStep, Framed.connSend,
          hco, ht, Option.isSome_some, Bool.and_self, if_true, hr, hl, and_self]
        rw [ih { s with connection := some c, upstreamReceived := s.upstreamReceived ++ [base64Decode (a.getD "")] } rfl hr hl]
        simp [List.filter_cons, ht, List.append_assoc]
      · have ht' : strTruthy a = false := by
          cases h : strTruthy a
          · rfl
          · exact absurd h ht
        simp only [List.map_cons, Framed.run, Framed.step, Framed.clientStep, ht',
          Bool.false_and, Bool.false_eq_true, if_false]
        rw [ih s hco hr hl]
        simp [List.filter_cons, ht']

/-- Upstream audio chunks in the WebSocket variant each become one base64
frame to the client, immediately, with no other state change. -/
theorem Framed.run_upAudio (env : Framed.Env) (chunks : List (List Byte)) (s : Framed.St)
    (h : s.clientClosed = false) :
    Framed.run env s (chunks.map fun c => Framed.Ev.up (.audioEv c)) =
      .ok { s with sentFrames := s.sentFrames ++
              chunks.map fun c => Framed.Frame.audio (base64EncodeStr c) } := by
  induction chunks generalizing s with
  | nil => simp [Framed.run]
  | cons c cs ih =>
      simp only [List.map_cons, Framed.run, Framed.step, Framed.upStep, Framed.wsSend, h,
        Bool.false_eq_true, if_false]
      rw [ih { s with sentFrames := s.sentFrames ++ [Framed.Frame.audio (base64EncodeStr c)], clientClosed := false } rfl]
      simp [List.append_assoc]

/-- Unfold one successful step of an HTTP run. -/
theorem RawStream.run_cons_ok (env : RawStream.Env) (s s' : RawStream.St)
    (e : RawStream.Ev) (es : List RawStream.Ev) (h : RawStream.step env s e = .ok s') :
    RawStream.run env s (e :: es) = RawStream.run env s' es := by
  simp only [RawStream.run, h]

/-- Unfold one successful step of a WebSocket run. -/
theorem Framed.ws_run_cons_ok (env : Framed.Env) (s s' : Framed.St)
    (e : Framed.Ev) (es : List Framed.Ev) (h : Framed.step env s e = .ok s') :
    Framed.run env s (e :: es) = Framed.run env s' es := by
  simp only [Framed.run, h]

/-! Claims. -/

/-- C1, counterexample. The claim says that after 3 upstream chunks of 50
bytes inside a 30 ms window the client observes exactly one flush of the 150
bytes once the 100 ms window elapses, without any further upstream event.
In the source, res.write is reachable only from inside the Audio handler,
the AgentAudioDone handler and cleanup, so with no further event nothing can
ever flush: after the three events the client has observed no write at all
and all 150 bytes still sit in the output buffer. -/
theorem c1_counterexample :
    (RawStream.run benignHttp RawStream.init
        [RawStream.Ev.audio (List.replicate 50 1) 1000,
         RawStream.Ev.audio (List.replicate 50 2) 1010,
         RawStream.Ev.audio (List.replicate 50 3) 1030]).map
        (fun s => (s.written, s.outputChunksQueue.length)) = .ok ([], 150) := by
  rfl

/-- C1 (amended). Flushes of the output buffer happen only inside event
handlers: a burst of chunks that all arrive strictly within 100 ms of the
window start produces no flush at all and leaves the concatenated bytes
buffered, and the buffered remainder is delivered as exactly one flush by
the next utterance-complete (or teardown) event. -/
theorem c1_flush_requires_further_event
    (c0 : List Byte) (t0 : Nat) (rest : List (List Byte × Nat))
    (hc : c0 ≠ []) (hrest : ∀ p ∈ rest, p.2 < t0 + 100) :
    (∃ s1, RawStream.run benignHttp RawStream.init
        (RawStream.Ev.audio c0 t0 :: rest.map fun p => RawStream.Ev.audio p.1 p.2) = .ok s1
      ∧ s1.written = []
      ∧ s1.outputChunksQueue = c0 ++ (rest.map Prod.fst).flatten)
    ∧ (∃ s2, RawStream.run benignHttp RawStream.init
        ((RawStream.Ev.audio c0 t0 :: rest.map fun p => RawStream.Ev.audio p.1 p.2)
          ++ [RawStream.Ev.audioDone]) = .ok s2
      ∧ s2.written = [c0 ++ (rest.map Prod.fst).flatten]
      ∧ s2.outputChunksQueue = []) := by
  have hne : c0 ++ (rest.map Prod.fst).flatten ≠ [] := by
    intro h
    exact hc (List.append_eq_nil.mp h).1
  have hstep : RawStream.step benignHttp RawStream.init (RawStream.Ev.audio c0 t0) =
      .ok { RawStream.init with outputChunksQueue := c0, isFirstOutputChunk := false, outputStartTime := some t0 } := by
    unfold RawStream.step RawStream.audioStep
    simp [RawStream.init, RawStream.osTruthy]
  have hrun1 : RawStream.run benignHttp RawStream.init
      (RawStream.Ev.audio c0 t0 :: rest.map fun p => RawStream.Ev.audio p.1 p.2) =
      .ok { RawStream.init with outputChunksQueue := c0 ++ (rest.map Prod.fst).flatten, isFirstOutputChunk := false, outputStartTime := some t0 } := by
    rw [RawStream.run_cons_ok benignHttp RawStream.init _ _ _ hstep]
    exact RawStream.run_audio_within rest t0
      { RawStream.init with outputChunksQueue := c0, isFirstOutputChunk := false, outputStartTime := some t0 }
      rfl rfl hrest
  refine ⟨⟨_, hrun1, rfl, rfl⟩,
    ⟨{ RawStream.init with written := [c0 ++ (rest.map Prod.fst).flatten], effects := [RawStream.Effect.writeClient (c0 ++ (rest.map Prod.fst).flatten)] }, ?_, rfl, rfl⟩⟩
  rw [RawStream.run_append, hrun1]
  simp only [RawStream.run, RawStream.step]
  rw [RawStream.flushOutputBuffer_eq]
  simp [hne, benignHttp, RawStream.init]

/-- The first chunk of the 3-chunk 30 ms burst of the spec scenario. -/
def scen2c0 : List Byte := List.replicate 50 1

/-- The remaining chunks and arrival times of the spec scenario burst. -/
def scen2rest : List (List Byte × Nat) := [(List.replicate 50 2, 1010), (List.replicate 50 3, 1030)]

/-- C1, witness: the amended statement at the concrete scenario burst. -/
theorem c1_witness :
    scen2c0 ≠ [] ∧ (∀ p ∈ scen2rest, p.2 < 1000 + 100) ∧
    ((∃ s1, RawStream.run benignHttp RawStream.init
        (RawStream.Ev.audio scen2c0 1000 :: scen2rest.map fun p => RawStream.Ev.audio p.1 p.2) = .ok s1
      ∧ s1.written = []
      ∧ s1.outputChunksQueue = scen2c0 ++ (scen2rest.map Prod.fst).flatten)
    ∧ (∃ s2, RawStream.run benignHttp RawStream.init
        ((RawStream.Ev.audio scen2c0 1000 :: scen2rest.map fun p => RawStream.Ev.audio p.1 p.2)
          ++ [RawStream.Ev.audioDone]) = .ok s2
      ∧ s2.written = [scen2c0 ++ (scen2rest.map Prod.fst).flatten]
      ∧ s2.outputChunksQueue = [])) :=
  ⟨by decide, by decide,
    c1_flush_requires_further_event scen2c0 1000 scen2rest (by decide) (by decide)⟩

/-- C2. Client audio delivered before the upstream welcome signal is a
no-op in both variants: the upstream receives nothing from it, it is not
queued anywhere in the session state, and what the upstream ends up with is
exactly the audio delivered from the welcome signal onwards — nothing is
retransmitted. connection.send itself is modelled from the spec (see
connSend). -/
theorem c2_preready_frames_dropped :
    (∀ (uuid : String) (pre post : List (Option String)),
      Framed.run benignWs Framed.init
          (Framed.Ev.client (.init uuid) ::
            ((pre.map fun a => Framed.Ev.client (.audio a)) ++
              Framed.Ev.up .welcome :: (post.map fun a => Framed.Ev.client (.audio a)))) =
        .ok { Framed.welcomeStep (Framed.clientStep Framed.init (.init uuid)) with
              upstreamReceived := (post.filter Framed.strTruthy).map fun a => base64Decode (a.getD "") })
    ∧ (∀ (pre post : List (List Byte)),
      RawStream.run benignHttp RawStream.init
          ((pre.map RawStream.Ev.reqData) ++
            RawStream.Ev.welcome :: (post.map RawStream.Ev.reqData)) =
        .ok { RawStream.welcomeStep RawStream.init with upstreamReceived := post }) := by
  constructor
  · intro uuid pre post
    rw [Framed.ws_run_cons_ok benignWs Framed.init
      (Framed.clientStep Framed.init (.init uuid)) (Framed.Ev.client (.init uuid))
      ((pre.map fun a => Framed.Ev.client (.audio a)) ++
        Framed.Ev.up .welcome :: (post.map fun a => Framed.Ev.client (.audio a))) rfl]
    rw [Framed.ws_run_append,
      Framed.run_audioMsgs_notReady benignWs pre (Framed.clientStep Framed.init (.init uuid))
        1 rfl (by simp [Framed.clientStep, Framed.initDeepgramConnection, Framed.init])]
    simp only []
    rw [Framed.ws_run_cons_ok benignWs (Framed.clientStep Framed.init (.init uuid))
      (Framed.welcomeStep (Framed.clientStep Framed.init (.init uuid)))
      (Framed.Ev.up .welcome) (post.map fun a => Framed.Ev.client (.audio a)) rfl]
    rw [Framed.run_audioMsgs_ready benignWs post
      (Framed.welcomeStep (Framed.clientStep Framed.init (.init uuid))) 1 rfl
      (by simp [Framed.welcomeStep, Framed.clientStep, Framed.initDeepgramConnection, Framed.init])
      (by simp [Framed.welcomeStep, Framed.clientStep, Framed.initDeepgramConnection, Framed.init])]
    simp [Framed.welcomeStep, Framed.clientStep, Framed.initDeepgramConnection, Framed.init]
  · intro pre post
    rw [RawStream.run_append,
      RawStream.run_reqData_notReady benignHttp pre RawStream.init rfl]
    simp only []
    rw [RawStream.run_cons_ok benignHttp RawStream.init (RawStream.welcomeStep RawStream.init)
      RawStream.Ev.welcome (post.map RawStream.Ev.reqData) rfl]
    rw [RawStream.run_reqData_ready benignHttp post (RawStream.welcomeStep RawStream.init) rfl rfl]
    simp [RawStream.welcomeStep, RawStream.init]

/-- C3. Invoking cleanup n times (n at least 1) leaves exactly the state —
including the recorded per-resource effects — of invoking it once, in both
transport variants, on any session state without duplicate resource handles.
Each observable effect therefore runs at most once per resource. -/
theorem c3_cleanup_idempotent :
    (∀ (env : RawStream.Env) (s : RawStream.St) (n : Nat),
       s.liveTimers.Nodup → 1 ≤ n →
       RawStream.cleanupIter env n s = RawStream.cleanupRun env s)
    ∧ (∀ (s : Framed.St) (n : Nat),
       s.liveTimers.Nodup → s.liveConns.Nodup → 1 ≤ n →
       Framed.cleanupIter benignWs n s = Framed.cleanupRun benignWs s) :=
  ⟨fun env s n h hn => RawStream.cleanupIter_eq env n s h hn,
   fun s n ht hc hn => Framed.ws_cleanupIter_eq n s ht hc hn⟩

/-- C3, witness: double and triple cleanup on concrete mid-session states. -/
theorem c3_witness :
    ({ RawStream.init with keepAliveIntervalId := some 1, liveTimers := [1], outputChunksQueue := [9] } : RawStream.St).liveTimers.Nodup
    ∧ RawStream.cleanupIter benignHttp 2
        { RawStream.init with keepAliveIntervalId := some 1, liveTimers := [1], outputChunksQueue := [9] } =
      RawStream.cleanupRun benignHttp
        { RawStream.init with keepAliveIntervalId := some 1, liveTimers := [1], outputChunksQueue := [9] }
    ∧ Framed.cleanupIter benignWs 3
        { Framed.init with keepAliveIntervalId := some 2, liveTimers := [2], connection := some 1, liveConns := [1] } =
      Framed.cleanupRun benignWs
        { Framed.init with keepAliveIntervalId := some 2, liveTimers := [2], connection := some 1, liveConns := [1] } :=
  ⟨by decide,
   c3_cleanup_idempotent.1 benignHttp
     { RawStream.init with keepAliveIntervalId := some 1, liveTimers := [1], outputChunksQueue := [9] }
     2 (by decide) (by decide),
   c3_cleanup_idempotent.2
     { Framed.init with keepAliveIntervalId := some 2, liveTimers := [2], connection := some 1, liveConns := [1] }
     3 (by decide) (by decide) (by decide)⟩

/-- C4. On a state with pending buffered bytes and an open response, cleanup
writes exactly those bytes to the client (one flush, before the response is
ended, as the effect order shows) and empties the buffer. -/
theorem c4_cleanup_flushes_pending (env : RawStream.Env) (s : RawStream.St)
    (hq : s.outputChunksQueue ≠ []) (hre : s.resEnded = false)
    (hw : env.resWriteFails = false) (he : env.resEndFails = false) :
    ∃ s', RawStream.cleanupE env s = .ok s'
      ∧ s'.written = s.written ++ [s.outputChunksQueue]
      ∧ s'.outputChunksQueue = []
      ∧ s'.resEnded = true
      ∧ s'.effects = s.effects
          ++ (match s.keepAliveIntervalId with
              | some id => if id ∈ s.liveTimers then [RawStream.Effect.cancelTimer id] else []
              | none => [])
          ++ [RawStream.Effect.writeClient s.outputChunksQueue]
          ++ [RawStream.Effect.endResponse]
          ++ (if s.connDisconnected = true ∨ env.disconnectFails = true then []
              else [RawStream.Effect.disconnectUpstream]) := by
  refine ⟨RawStream.cleanupRun env s, RawStream.cleanupE_ok env s, ?_, ?_, ?_, ?_⟩ <;>
    rw [RawStream.cleanupRun_eq] <;>
    simp [hq, hre, hw, he, List.append_assoc]

/-- The state used by the C4 witness: two buffered bytes, open response. -/
def c4state : RawStream.St := { RawStream.init with outputChunksQueue := [7, 8] }

/-- C4, witness: cleanup on the concrete state with bytes 7, 8 pending. -/
theorem c4_witness :
    c4state.outputChunksQueue ≠ [] ∧ c4state.resEnded = false ∧
    (∃ s', RawStream.cleanupE benignHttp c4state = .ok s'
      ∧ s'.written = c4state.written ++ [c4state.outputChunksQueue]
      ∧ s'.outputChunksQueue = []
      ∧ s'.resEnded = true
      ∧ s'.effects = c4state.effects
          ++ (match c4state.keepAliveIntervalId with
              | some id => if id ∈ c4state.liveTimers then [RawStream.Effect.cancelTimer id] else []
              | none => [])
          ++ [RawStream.Effect.writeClient c4state.outputChunksQueue]
          ++ [RawStream.Effect.endResponse]
          ++ (if c4state.connDisconnected = true ∨ benignHttp.disconnectFails = true then []
              else [RawStream.Effect.disconnectUpstream])) :=
  ⟨by decide, rfl, c4_cleanup_flushes_pending benignHttp c4state (by decide) rfl rfl rfl⟩

/-- C5 (amended). The HTTP cleanup never raises — every close error is
swallowed and it still attempts the remaining resources (the response ends
and the connection is disconnected whenever their own primitives can
succeed, whatever failed before). The WebSocket cleanup of src/index.js has
no error handling: a throwing connection.disconnect propagates to the
caller, skipping the client-socket close. -/
theorem c5_cleanup_error_handling :
    (∀ (env : RawStream.Env) (s : RawStream.St),
       ∃ s', RawStream.cleanupE env s = .ok s'
         ∧ s'.resEnded = (s.resEnded || !env.resEndFails)
         ∧ s'.connDisconnected = (s.connDisconnected || !env.disconnectFails))
    ∧ (∀ (s : Framed.St) (c : Nat) (env : Framed.Env),
       s.connection = some c → c ∈ s.liveConns → env.disconnectFails = true →
       Framed.cleanupE env s = .error "connection.disconnect failed") := by
  constructor
  · intro env s
    refine ⟨RawStream.cleanupRun env s, RawStream.cleanupE_ok env s, ?_, ?_⟩ <;>
      rw [RawStream.cleanupRun_eq]
  · intro s c env hco hmem hdf
    unfold Framed.cleanupE
    cases hkA : s.keepAliveIntervalId with
    | none =>
        simp only [hco]
        unfold Framed.disconnectOp
        simp [hmem, hdf]
    | some id =>
        simp only [Framed.ws_clearIntervalOp_eq, hco]
        unfold Framed.disconnectOp
        simp [hmem, hdf]

/-- C5, counterexample: on the session state reached by init and welcome, a
throwing connection.disconnect makes the WebSocket cleanup itself return the
error to its caller — it does not swallow it, contradicting the claim for
the framed variant. -/
theorem c5_counterexample :
    Framed.cleanupE { disconnectFails := true, wsCloseFails := false }
        (Framed.welcomeStep (Framed.clientStep Framed.init (.init "session"))) =
      .error "connection.disconnect failed" := by
  rfl

/-- C5, witness: the amended statement at concrete inputs. -/
theorem c5_witness :
    (∃ s', RawStream.cleanupE { resWriteFails := true, resEndFails := true, disconnectFails := false }
        RawStream.init = .ok s'
      ∧ s'.resEnded = false ∧ s'.connDisconnected = true)
    ∧ Framed.cleanupE { disconnectFails := true, wsCloseFails := true }
        { Framed.init with connection := some 5, liveConns := [5] } =
      .error "connection.disconnect failed" :=
  ⟨c5_cleanup_error_handling.1 { resWriteFails := true, resEndFails := true, disconnectFails := false } RawStream.init,
   c5_cleanup_error_handling.2 { Framed.init with connection := some 5, liveConns := [5] } 5
     { disconnectFails := true, wsCloseFails := true } rfl (by decide) rfl⟩

/-- C6. Chunk-boundary invariance. Upstream to client: for any chunks at any
arrival times, once the session is torn down the concatenation of everything
written to the client equals the concatenation of the upstream chunks, in
order. Client to upstream: chunks read from the request body while the
connection is ready are forwarded verbatim, in order, so their concatenation
is preserved under any re-chunking. -/
theorem c6_chunk_boundary_invariant :
    (∀ (chunks : List (List Byte × Nat)),
       ∃ s', RawStream.run benignHttp RawStream.init
           ((chunks.map fun p => RawStream.Ev.audio p.1 p.2) ++ [RawStream.Ev.reqEnd]) = .ok s'
         ∧ s'.written.flatten = (chunks.map Prod.fst).flatten)
    ∧ (∀ (chunks : List (List Byte)) (s : RawStream.St),
       s.connReady = true → s.connDisconnected = false →
       RawStream.run benignHttp s (chunks.map RawStream.Ev.reqData) =
         .ok { s with upstreamReceived := s.upstreamReceived ++ chunks }) := by
  constructor
  · intro chunks
    obtain ⟨m, hm, hre, hinv⟩ := RawStream.run_audio_concat chunks RawStream.init rfl
    have h0 : m.written.flatten ++ m.outputChunksQueue = (chunks.map Prod.fst).flatten := by
      simpa [RawStream.init] using hinv
    refine ⟨RawStream.cleanupRun benignHttp m, ?_, ?_⟩
    · rw [RawStream.run_append, hm]
      simp only [RawStream.run, RawStream.step]
      rw [RawStream.cleanupE_ok]
    · rw [RawStream.cleanupRun_eq]
      by_cases hq : m.outputChunksQueue = []
      · simp only [hq, true_or, if_true, List.append_nil]
        rw [← h0, hq, List.append_nil]
      · simp [hq, hre, benignHttp, List.flatten_append]
        exact h0
  · intro chunks s h1 h2
    exact RawStream.run_reqData_ready benignHttp chunks s h1 h2

/-- C6, witness: a concrete burst in each direction. -/
theorem c6_witness :
    (∃ s', RawStream.run benignHttp RawStream.init
        (([([1, 2], 5), ([3], 250)] : List (List Byte × Nat)).map (fun p => RawStream.Ev.audio p.1 p.2)
          ++ [RawStream.Ev.reqEnd]) = .ok s'
      ∧ s'.written.flatten = (([([1, 2], 5), ([3], 250)] : List (List Byte × Nat)).map Prod.fst).flatten)
    ∧ ((RawStream.welcomeStep RawStream.init).connReady = true
      ∧ RawStream.run benignHttp (RawStream.welcomeStep RawStream.init)
          ([[4], [5, 6]].map RawStream.Ev.reqData) =
        .ok { RawStream.welcomeStep RawStream.init with
              upstreamReceived := (RawStream.welcomeStep RawStream.init).upstreamReceived ++ [[4], [5, 6]] }) :=
  ⟨c6_chunk_boundary_invariant.1 [([1, 2], 5), ([3], 250)],
   rfl,
   c6_chunk_boundary_invariant.2 [[4], [5, 6]] (RawStream.welcomeStep RawStream.init) rfl rfl⟩

/-- cleanupE never errors under a benign environment. -/
theorem Framed.cleanupE_benign_ok (s : Framed.St) :
    Framed.cleanupE benignWs s = .ok (Framed.cleanupRun benignWs s) := by
  rw [Framed.cleanupRun_benign_eq, Framed.cleanupRun_benign]

/-- The events a WebSocket session can observe that neither repeat the init
frame nor repeat the upstream welcome. -/
def Framed.benignEv : Framed.Ev → Prop
  | .client (.init _) => False
  | .up .welcome => False
  | _ => True

/-- The single-owner invariant reached after one init and one welcome:
exactly one connection was ever created (handle 1) and one keep-alive timer
started (handle 2); each is either still live and never torn down, or gone
and torn down exactly once. -/
def Framed.oneOwnerInv (s : Framed.St) : Prop :=
  s.connsCreated = 1 ∧ s.connection = some 1 ∧ s.keepAliveIntervalId = some 2 ∧
  ((s.liveConns = [1] ∧ s.effects.count (Framed.Effect.disconnectUpstream 1) = 0) ∨
   (s.liveConns = [] ∧ s.effects.count (Framed.Effect.disconnectUpstream 1) = 1)) ∧
  ((s.liveTimers = [2] ∧ s.effects.count (Framed.Effect.cancelTimer 2) = 0) ∨
   (s.liveTimers = [] ∧ s.effects.count (Framed.Effect.cancelTimer 2) = 1))

/-- The invariant only reads the ownership fields. -/
theorem Framed.oneOwnerInv_of_eq (s s' : Framed.St)
    (h1 : s'.connsCreated = s.connsCreated) (h2 : s'.connection = s.connection)
    (h3 : s'.keepAliveIntervalId = s.keepAliveIntervalId) (h4 : s'.liveConns = s.liveConns)
    (h5 : s'.liveTimers = s.liveTimers) (h6 : s'.effects = s.effects)
    (hinv : Framed.oneOwnerInv s) : Framed.oneOwnerInv s' := by
  unfold Framed.oneOwnerInv at *
  rw [h1, h2, h3, h4, h5, h6]
  exact hinv

/-- Cleanup preserves the single-owner invariant and leaves no live
connection or timer: whichever was still live is torn down (now exactly
once), and an already torn down one is not torn down again. -/
theorem Framed.oneOwnerInv_cleanup (s : Framed.St) (hinv : Framed.oneOwnerInv s) :
    Framed.oneOwnerInv (Framed.cleanupRun benignWs s)
    ∧ (Framed.cleanupRun benignWs s).liveConns = []
    ∧ (Framed.cleanupRun benignWs s).liveTimers = [] := by
  obtain ⟨h1, h2, h3, h4, h5⟩ := hinv
  rw [Framed.cleanupRun_benign]
  simp only [h2, h3]
  rcases h4 with ⟨hc4, he4⟩ | ⟨hc4, he4⟩ <;> rcases h5 with ⟨ht5, he5⟩ | ⟨ht5, he5⟩ <;>
    cases hcl : s.clientClosed <;>
      simp [Framed.oneOwnerInv, h1, h2, h3, hc4, he4, ht5, he5, hcl, List.count_append]

/-- Any event other than a fresh init or welcome keeps the single-owner
invariant. -/
theorem Framed.oneOwnerInv_step (s : Framed.St) (e : Framed.Ev)
    (hinv : Framed.oneOwnerInv s) (hbe : Framed.benignEv e) :
    ∃ s', Framed.step benignWs s e = .ok s' ∧ Framed.oneOwnerInv s' := by
  cases e with
  | client m =>
      cases m with
      | init u => simp [Framed.benignEv] at hbe
      | audio a =>
          refine ⟨_, rfl, ?_⟩
          simp only [Framed.clientStep, Framed.connSend]
          split <;> try split
          all_goals try split
          all_goals exact hinv
      | other t => exact ⟨s, rfl, hinv⟩
      | badJson => exact ⟨s, rfl, hinv⟩
  | up ue =>
      cases ue with
      | welcome => simp [Framed.benignEv] at hbe
      | convText role content final =>
          refine ⟨_, rfl, ?_⟩
          unfold Framed.wsSend
          split
          all_goals exact hinv
      | audioEv d =>
          refine ⟨_, rfl, ?_⟩
          unfold Framed.wsSend
          split
          all_goals exact hinv
      | audioDone => exact ⟨s, rfl, hinv⟩
      | userStartedSpeaking =>
          refine ⟨_, rfl, ?_⟩
          unfold Framed.wsSend
          split
          all_goals exact hinv
      | errorEv msg =>
          refine ⟨_, Framed.cleanupE_benign_ok (Framed.wsSend (.error msg) s), ?_⟩
          have h1 : Framed.oneOwnerInv (Framed.wsSend (.error msg) s) := by
            unfold Framed.wsSend
            split
            all_goals exact hinv
          exact (Framed.oneOwnerInv_cleanup _ h1).1
      | closeEv =>
          exact ⟨_, Framed.cleanupE_benign_ok s, (Framed.oneOwnerInv_cleanup s hinv).1⟩
  | clientClose =>
      refine ⟨_, Framed.cleanupE_benign_ok { s with clientClosed := true }, ?_⟩
      exact (Framed.oneOwnerInv_cleanup { s with clientClosed := true }
        (Framed.oneOwnerInv_of_eq { s with clientClosed := true } s rfl rfl rfl rfl rfl rfl hinv)).1
  | clientError =>
      exact ⟨_, Framed.cleanupE_benign_ok s, (Framed.oneOwnerInv_cleanup s hinv).1⟩

/-- Running any trace of benign events keeps the single-owner invariant. -/
theorem Framed.run_benign_inv (evs : List Framed.Ev) (s : Framed.St)
    (hbe : ∀ e ∈ evs, Framed.benignEv e) (hinv : Framed.oneOwnerInv s) :
    ∃ s', Framed.run benignWs s evs = .ok s' ∧ Framed.oneOwnerInv s' := by
  induction evs generalizing s with
  | nil => exact ⟨s, rfl, hinv⟩
  | cons e es ih =>
      obtain ⟨s1, hs1, hinv1⟩ := Framed.oneOwnerInv_step s e hinv (hbe e (by simp))
      obtain ⟨s2, hs2, hinv2⟩ := ih s1 (fun e' he' => hbe e' (by simp [he'])) hinv1
      exact ⟨s2, by rw [Framed.ws_run_cons_ok benignWs s s1 e es hs1]; exact hs2, hinv2⟩

/-- C7, counterexample: two init frames from the client create two upstream
connections and (after each welcome) two keep-alive timers — all four live
at once — and a subsequent cleanup disconnects and cancels only the latest
ones, leaving the first connection and first timer live forever. -/
theorem c7_counterexample :
    (Framed.run benignWs Framed.init
        [.client (.init "a"), .up .welcome, .client (.init "b"), .up .welcome]).map
      (fun s => (s.connsCreated, s.liveConns, s.liveTimers)) = .ok (2, [1, 3], [2, 4])
    ∧ (Framed.run benignWs Framed.init
        [.client (.init "a"), .up .welcome, .client (.init "b"), .up .welcome,
          .clientClose]).map
      (fun s => (s.liveConns, s.liveTimers)) = .ok ([1], [2]) :=
  ⟨rfl, rfl⟩

/-- C7 (amended). A session that receives exactly one init frame and one
welcome owns exactly one upstream connection and one keep-alive timer for
its whole lifetime, whatever other events occur: at teardown nothing is
left live and each resource was torn down exactly once. A repeated init
breaks this (see the counterexample). -/
theorem c7_single_init_single_owner (uuid : String) (evs : List Framed.Ev)
    (hbe : ∀ e ∈ evs, Framed.benignEv e) :
    ∃ s', Framed.run benignWs Framed.init
        (Framed.Ev.client (.init uuid) :: Framed.Ev.up .welcome ::
          (evs ++ [Framed.Ev.clientClose])) = .ok s'
      ∧ s'.connsCreated = 1
      ∧ s'.liveConns = [] ∧ s'.liveTimers = []
      ∧ s'.effects.count (Framed.Effect.cancelTimer 2) = 1
      ∧ s'.effects.count (Framed.Effect.disconnectUpstream 1) = 1 := by
  have hW : Framed.oneOwnerInv (Framed.welcomeStep (Framed.clientStep Framed.init (.init uuid))) :=
    ⟨rfl, rfl, rfl, Or.inl ⟨rfl, rfl⟩, Or.inl ⟨rfl, rfl⟩⟩
  obtain ⟨m, hm, hminv⟩ := Framed.run_benign_inv evs _ hbe hW
  have hmcl : Framed.oneOwnerInv { m with clientClosed := true } :=
    Framed.oneOwnerInv_of_eq { m with clientClosed := true } m rfl rfl rfl rfl rfl rfl hminv
  obtain ⟨hfinv, hfc, hft⟩ :=
    Framed.oneOwnerInv_cleanup { m with clientClosed := true } hmcl
  obtain ⟨hf1, hf2, hf3, hf4, hf5⟩ := hfinv
  refine ⟨Framed.cleanupRun benignWs { m with clientClosed := true }, ?_, hf1, hfc, hft, ?_, ?_⟩
  · rw [Framed.ws_run_cons_ok benignWs Framed.init (Framed.clientStep Framed.init (.init uuid))
      (Framed.Ev.client (.init uuid)) _ rfl]
    rw [Framed.ws_run_cons_ok benignWs (Framed.clientStep Framed.init (.init uuid))
      (Framed.welcomeStep (Framed.clientStep Framed.init (.init uuid)))
      (Framed.Ev.up .welcome) _ rfl]
    rw [Framed.ws_run_append, hm]
    simp only [Framed.run, Framed.step]
    rw [Framed.cleanupE_benign_ok]
  · rcases hf5 with ⟨h, hcount⟩ | ⟨h, hcount⟩
    · rw [hft] at h
      exact absurd h (by simp)
    · exact hcount
  · rcases hf4 with ⟨h, hcount⟩ | ⟨h, hcount⟩
    · rw [hfc] at h
      exact absurd h (by simp)
    · exact hcount

/-- C7, witness: the amended statement at a concrete single-init trace. -/
theorem c7_witness :
    (∀ e ∈ ([] : List Framed.Ev), Framed.benignEv e) ∧
    (∃ s', Framed.run benignWs Framed.init
        (Framed.Ev.client (.init "u") :: Framed.Ev.up .welcome ::
          (([] : List Framed.Ev) ++ [Framed.Ev.clientClose])) = .ok s'
      ∧ s'.connsCreated = 1
      ∧ s'.liveConns = [] ∧ s'.liveTimers = []
      ∧ s'.effects.count (Framed.Effect.cancelTimer 2) = 1
      ∧ s'.effects.count (Framed.Effect.disconnectUpstream 1) = 1) :=
  ⟨by simp, c7_single_init_single_owner "u" [] (by simp)⟩

/-- C8, counterexample: a final and a non-final transcript event with the
same role and text are handled identically by the WebSocket session — the
frame sent to the client carries no finality at all, contradicting the
claim that finality is forwarded as metadata. -/
theorem c8_counterexample :
    Framed.upStep benignWs Framed.init (.convText "user" "hi" true) =
      Framed.upStep benignWs Framed.init (.convText "user" "hi" false) := rfl

/-- C8 (amended). The WebSocket transport forwards every transcript event,
final or not, as a frame carrying role and text only (no finality field);
the HTTP transport sends no transcript to the client at all and merely logs
the finalized ones. -/
theorem c8_transcript_forwarding :
    (∀ (s : Framed.St) (role content : String) (final : Bool),
       s.clientClosed = false →
       Framed.upStep benignWs s (.convText role content final) =
         .ok { s with sentFrames := s.sentFrames ++
                 [Framed.Frame.transcript (if role == "user" then "user" else "agent") content] })
    ∧ (∀ (env : RawStream.Env) (s : RawStream.St) (role text : String) (final : Bool),
       RawStream.step env s (.convText role text final) =
         .ok { s with loggedTranscripts := s.loggedTranscripts ++
                 (if final = true then [(role, text)] else []) }) := by
  constructor
  · intro s role content final h
    unfold Framed.upStep Framed.wsSend
    simp [h]
  · intro env s role text final
    unfold RawStream.step
    cases final <;> simp

/-- C8, witness: one non-final transcript forwarded by the WebSocket
session, one final transcript logged (and not forwarded) by the HTTP one. -/
theorem c8_witness :
    Framed.init.clientClosed = false
    ∧ Framed.upStep benignWs Framed.init (.convText "agent" "hello" false) =
        .ok { Framed.init with sentFrames := [Framed.Frame.transcript "agent" "hello"] }
    ∧ RawStream.step benignHttp RawStream.init (.convText "user" "hey" true) =
        .ok { RawStream.init with loggedTranscripts := [("user", "hey")] } :=
  ⟨rfl,
   c8_transcript_forwarding.1 Framed.init "agent" "hello" false rfl,
   c8_transcript_forwarding.2 benignHttp RawStream.init "user" "hey" true⟩

/-- C9. In the WebSocket transport every upstream audio chunk is re-encoded
and sent to the client immediately as its own base64 frame: processing any
chunk sequence appends exactly one frame per chunk, in order, and changes
nothing else in the session state — there is no buffer, window or coalescing
on this path. -/
theorem c9_ws_audio_immediate (env : Framed.Env) (chunks : List (List Byte)) (s : Framed.St)
    (h : s.clientClosed = false) :
    Framed.run env s (chunks.map fun c => Framed.Ev.up (.audioEv c)) =
      .ok { s with sentFrames := s.sentFrames ++
              chunks.map fun c => Framed.Frame.audio (base64EncodeStr c) } :=
  Framed.run_upAudio env chunks s h

/-- C9, witness: three chunks, three immediate frames. -/
theorem c9_witness :
    Framed.init.clientClosed = false
    ∧ Framed.run benignWs Framed.init
        (([[77, 97, 110], [1], [2, 3]] : List (List Byte)).map fun c => Framed.Ev.up (.audioEv c)) =
      .ok { Framed.init with sentFrames := ([[77, 97, 110], [1], [2, 3]] : List (List Byte)).map fun c => Framed.Frame.audio (base64EncodeStr c) } :=
  ⟨rfl, c9_ws_audio_immediate benignWs [[77, 97, 110], [1], [2, 3]] Framed.init rfl⟩

/-- C10. A client audio frame whose audio field is absent or the empty
string is silently dropped: the whole session state — upstream bytes, sent
frames, everything — is exactly as before, and no error frame is emitted. -/
theorem c10_empty_audio_dropped (s : Framed.St) (a : Option String)
    (h : a = none ∨ a = some "") :
    Framed.clientStep s (.audio a) = s := by
  cases h with
  | inl h =>
      rw [h]
      rfl
  | inr h =>
      rw [h]
      rfl

/-- C10, witness: both the absent field and the empty string, on a live
mid-session state. -/
theorem c10_witness :
    ((none : Option String) = none ∨ (none : Option String) = some "")
    ∧ Framed.clientStep (Framed.welcomeStep (Framed.clientStep Framed.init (.init "u")))
        (.audio none) =
      Framed.welcomeStep (Framed.clientStep Framed.init (.init "u")) :=
  ⟨Or.inl rfl,
   c10_empty_audio_dropped (Framed.welcomeStep (Framed.clientStep Framed.init (.init "u")))
     none (Or.inl rfl)⟩
